import Mathlib

/-!
Verification of the wireless-network selection logic of
`src/wifi-reconnctor.py` (function `find_better_wifi` and the module-level
configuration it reads).

The Python source is embedded shallowly:

* signal qualities are rationals (the source divides two parsed integers
  into a fraction);
* the scan snapshot (a Python dict keyed on the network name) is an
  association list `List (String × ScanRecord)`;
* the fatal `bail_with_message` calls (which print and `sys.exit`) and the
  Python runtime exceptions the function can raise (`KeyError`,
  `UnboundLocalError`) are modelled by the error side of `Except PyErr`;
* the local variable `fudge`, which the source may read before any
  assignment on some paths, is carried as an `Option Rat` in the loop
  state: `none` means the name is still unbound and reading it raises
  `UnboundLocalError`;
* the source runs under Python 2, whose order on values of different
  builtin types compares the type names, so every comparison of a `str`
  with a `float` (as in `sufficiently_better < upgrade_wifi_quality -
  fudge`) evaluates to `False`; `py2LtStrRat` embeds exactly that.
-/

/-- Fatal outcomes of `find_better_wifi`:
`bail msg` models `bail_with_message` (prints ERROR and exits the process;
at the missing-active-wifi call site the source passes a stray second
argument to `bail_with_message`, so at runtime that line actually aborts
with a `TypeError` before printing — either way a fatal abort with no
decision, which is what matters for the properties below);
`keyError k` models a Python `KeyError` on a dict lookup;
`unboundLocal` models `UnboundLocalError` (a local read before assignment). -/
inductive PyErr where
  | bail (msg : String)
  | keyError (key : String)
  | unboundLocal
deriving DecidableEq, Repr

/-- One record of `match_iwlist_v30_output`: the dict built per scanned
cell.  Selection reads only `quality`; the remaining fields are the
diagnostic metadata the parser stores alongside it. -/
structure ScanRecord where
  essid : String
  cell : Int
  channel : Int
  quality : Rat
  signal_level : String
  address : String
  frequency : Rat
deriving DecidableEq, Repr

/-- Lookup in the scan snapshot, modelling `scanned_wifi_set[key]` /
`key in scanned_wifi_set` on the Python dict. -/
def lookupDict : List (String × ScanRecord) → String → Option ScanRecord
  | [], _ => none
  | (k, v) :: rest, key => if k = key then some v else lookupDict rest key

/-- Python membership `x in l` where `x` may be `None` (never equal to any
string in the list). -/
def optMem (a : Option String) (l : List String) : Bool :=
  match a with
  | none => false
  | some s => l.contains s

/-- The decision (an optional string, since the degenerate path returns the
possibly-absent active identifier unchanged) lies in a given list. -/
def optInList (d : Option String) (l : List String) : Prop :=
  match d with
  | none => False
  | some s => s ∈ l

/-- A network name is present in the snapshot with quality at or above the
floor, i.e. it survives both `continue` filters of the preferred loop. -/
def inRangeB (scanned : List (String × ScanRecord)) (lb : Rat) (w : String) : Bool :=
  match lookupDict scanned w with
  | none => false
  | some r => decide (lb ≤ r.quality)

/-- Some name in the list is present in the snapshot at or above the floor. -/
def anyInRange (scanned : List (String × ScanRecord)) (lb : Rat) (l : List String) : Bool :=
  l.any (fun w => inRangeB scanned lb w)

/-- The active identifier occurs as a key of the snapshot
(`active_wifi in scanned_wifi_set`, with `None` never a key). -/
def activeInSnapshot (active : Option String) (scanned : List (String × ScanRecord)) : Bool :=
  match active with
  | none => false
  | some s => (lookupDict scanned s).isSome

/-- Python 2 comparison of a `str` with a `float`: values of distinct
builtin types are ordered by type name, and `float` sorts before `str`,
so a string is never less than a float.  This is the semantics of
`sufficiently_better < upgrade_wifi_quality - fudge` in the source, whose
left operand is the network NAME, not its quality. -/
def py2LtStrRat (_s : String) (_q : Rat) : Bool :=
  false

/-- The mutable locals threaded through both `for` loops of
`find_better_wifi`.  `fudge = none` means the local `fudge` has not been
assigned yet. -/
structure LoopSt where
  sufficiently_better : String
  better_quality : Rat
  fudge : Option Rat
deriving DecidableEq, Repr

/-- Body of the first loop (`for wifi in preferred_wlans`), lines 455-476
of the source: skip names absent from the snapshot or below the fixed
lower bound; adopt the candidate outright when the active network is not
preferred; otherwise run the hysteresis comparison, assigning `fudge`
only on the paths the source does (so it can be read unassigned), and
comparing the string `sufficiently_better` with the candidate quality
under Python 2 mixed-type ordering. -/
def tier1_body (active_wifi : String) (active_is_preferred allow_downgrade : Bool)
    (delta lb : Rat) (scanned : List (String × ScanRecord))
    (st : LoopSt) (wifi : String) : Except PyErr LoopSt :=
  match lookupDict scanned wifi with
  | none => .ok st
  | some r =>
    let upgrade_wifi_quality := r.quality
    if upgrade_wifi_quality < lb then .ok st
    else if active_is_preferred = false then
      .ok { st with sufficiently_better := wifi, better_quality := upgrade_wifi_quality }
    else
      let st1 :=
        if st.sufficiently_better = active_wifi then
          if allow_downgrade = false then { st with fudge := some delta } else st
        else { st with fudge := some (0 : Rat) }
      match st1.fudge with
      | none => .error PyErr.unboundLocal
      | some fudge =>
        if py2LtStrRat st1.sufficiently_better (upgrade_wifi_quality - fudge) then
          .ok { st1 with sufficiently_better := wifi, better_quality := upgrade_wifi_quality }
        else .ok st1

/-- Body of the second loop (`for wifi in non_preferred_wlans`), lines
485-495 of the source: the quality is read with a plain dict subscript
(no presence check, so an absent name raises `KeyError`), then the same
margin comparison as the first loop, with `fudge` assigned on both
branches here. -/
def tier2_body (active_wifi : String) (delta lb : Rat)
    (scanned : List (String × ScanRecord))
    (st : LoopSt) (wifi : String) : Except PyErr LoopSt :=
  match lookupDict scanned wifi with
  | none => .error (PyErr.keyError wifi)
  | some r =>
    let upgrade_wifi_quality := r.quality
    if upgrade_wifi_quality < lb then .ok st
    else
      let fudge : Rat := if st.sufficiently_better = active_wifi then delta else 0
      let st1 := { st with fudge := some fudge }
      if py2LtStrRat st1.sufficiently_better (upgrade_wifi_quality - fudge) then
        .ok { st1 with sufficiently_better := wifi, better_quality := upgrade_wifi_quality }
      else .ok st1

/-- Run a loop body over a list of names, propagating the first raised
exception (a raise inside a Python `for` aborts the loop and the call). -/
def runLoop (body : LoopSt → String → Except PyErr LoopSt) :
    LoopSt → List String → Except PyErr LoopSt
  | st, [] => .ok st
  | st, w :: ws =>
    match body st w with
    | .error e => .error e
    | .ok st1 => runLoop body st1 ws

/-- Lines 451-496 of the source, after the guards: initialise the search
state from the active network, run the preferred loop, short-circuit when
`sufficiently_better_is_preferred` (which the source sets once from
`active_is_preferred` and never updates) and the best quality is strictly
above the lower bound, otherwise run the non-preferred loop. -/
def tiers_search (active_wifi : String) (active_is_preferred allow_downgrade : Bool)
    (active_quality : Rat) (scanned : List (String × ScanRecord))
    (preferred_wlans non_preferred_wlans : List String)
    (delta lb : Rat) : Except PyErr (Option String) :=
  match runLoop
      (tier1_body active_wifi active_is_preferred allow_downgrade delta lb scanned)
      ⟨active_wifi, active_quality, none⟩ preferred_wlans with
  | .error e => .error e
  | .ok st1 =>
    if active_is_preferred && decide (lb < st1.better_quality) then
      .ok (some st1.sufficiently_better)
    else
      match runLoop (tier2_body active_wifi delta lb scanned) st1 non_preferred_wlans with
      | .error e => .error e
      | .ok st2 => .ok (some st2.sufficiently_better)

/-- The selection engine, `find_better_wifi` of the source, with the
module globals it reads passed explicitly.  Structure, guard order and
error behaviour follow lines 424-496: empty/absent snapshot returns the
active identifier before any guard; then the both-lists guard, the
empty/absent-active guard, and the active-missing-from-scan guard, each a
fatal bail; then the two-tier search. -/
def find_better_wifi_core (active_wifi : Option String)
    (scanned_wifi_set : Option (List (String × ScanRecord)))
    (preferred_wlans non_preferred_wlans : List String)
    (signal_quality_delta_threshold signal_quality_lower_bound : Rat) :
    Except PyErr (Option String) :=
  match scanned_wifi_set with
  | none => .ok active_wifi
  | some scanned =>
    if scanned.length = 0 then .ok active_wifi
    else
      let active_is_preferred := optMem active_wifi preferred_wlans
      if optMem active_wifi non_preferred_wlans && active_is_preferred then
        .error (PyErr.bail "cannot be both preferred and non-preferred")
      else
        match active_wifi with
        | none => .error (PyErr.bail "couldnt find active wifi")
        | some a =>
          if a = "" then .error (PyErr.bail "couldnt find active wifi")
          else
            match lookupDict scanned a with
            | none => .error (PyErr.bail "no iwlist info on active wifi")
            | some active_rec =>
              tiers_search a active_is_preferred
                (decide (active_rec.quality < signal_quality_lower_bound))
                active_rec.quality scanned preferred_wlans non_preferred_wlans
                signal_quality_delta_threshold signal_quality_lower_bound

/-- Line 141 of the source: the fixed module constant used for every
floor comparison inside `find_better_wifi`.  It is not among the globals
`parse_commandline_args` declares and is never reassigned. -/
def signal_quality_lower_bound : Rat :=
  mkRat 1 2

/-- The module globals that `parse_commandline_args` may modify (lines
134-143 minus the fixed `signal_quality_lower_bound`).  `find_better_wifi`
reads `preferred_wlans`, `non_preferred_wlans` and
`signal_quality_delta_threshold` from here; `signal_quality_threshold` is
set by the `--signal_quality_threshold` flag but never read by the
selection logic. -/
structure Flags where
  dry_run : Bool
  interface : String
  lock : Bool
  lockfile : Option String
  non_preferred_wlans : List String
  preferred_wlans : List String
  signal_quality_delta_threshold : Rat
  signal_quality_threshold : Rat
  unlock : Bool
deriving DecidableEq

/-- `find_better_wifi(active_wifi, scanned_wifi_set)` under a given state
of the module globals. -/
def find_better_wifi (g : Flags) (active_wifi : Option String)
    (scanned_wifi_set : Option (List (String × ScanRecord))) :
    Except PyErr (Option String) :=
  find_better_wifi_core active_wifi scanned_wifi_set
    g.preferred_wlans g.non_preferred_wlans
    g.signal_quality_delta_threshold signal_quality_lower_bound

/-- Helper for building concrete scan records; only the essid and the
quality matter to the selection logic. -/
def mkScan (e : String) (q : Rat) : ScanRecord :=
  { essid := e, cell := 1, channel := 6, quality := q
    signal_level := "40", address := "00:11:22:33:44:55", frequency := mkRat 2437 1000 }

/-- The call ended in a `bail_with_message` abort (the source's rendering
of a fatal configuration error: no decision is produced). -/
def isBailError (r : Except PyErr (Option String)) : Prop :=
  match r with
  | .error (PyErr.bail _) => True
  | _ => False

theorem py2LtStrRat_eq_false (s : String) (q : Rat) : py2LtStrRat s q = false :=
  rfl

theorem runLoop_nil (b : LoopSt → String → Except PyErr LoopSt) (st : LoopSt) :
    runLoop b st [] = .ok st :=
  rfl

theorem runLoop_cons (b : LoopSt → String → Except PyErr LoopSt) (st : LoopSt)
    (w : String) (ws : List String) :
    runLoop b st (w :: ws) =
      (match b st w with
       | .error e => .error e
       | .ok st1 => runLoop b st1 ws) :=
  rfl

theorem tier2_body_ok (a : String) (delta lb : Rat) (sc : List (String × ScanRecord))
    (st st1 : LoopSt) (w : String)
    (h : tier2_body a delta lb sc st w = .ok st1) :
    st1.sufficiently_better = st.sufficiently_better ∧
      st1.better_quality = st.better_quality := by
  unfold tier2_body at h
  cases hl : lookupDict sc w with
  | none =>
    rw [hl] at h
    exact Except.noConfusion h
  | some r =>
    rw [hl] at h
    simp only [py2LtStrRat, Bool.false_eq_true, if_false] at h
    split at h
    · cases h
      exact ⟨rfl, rfl⟩
    · cases h
      exact ⟨rfl, rfl⟩

theorem runLoop_tier2_ok (a : String) (delta lb : Rat) (sc : List (String × ScanRecord)) :
    ∀ (l : List String) (st st' : LoopSt),
      runLoop (tier2_body a delta lb sc) st l = .ok st' →
      st'.sufficiently_better = st.sufficiently_better ∧
        st'.better_quality = st.better_quality := by
  intro l
  induction l with
  | nil =>
    intro st st' h
    rw [runLoop_nil] at h
    cases h
    exact ⟨rfl, rfl⟩
  | cons w ws ih =>
    intro st st' h
    rw [runLoop_cons] at h
    cases hb : tier2_body a delta lb sc st w with
    | error e =>
      rw [hb] at h
      exact Except.noConfusion h
    | ok st1 =>
      rw [hb] at h
      obtain ⟨h1, h2⟩ := ih st1 st' h
      obtain ⟨g1, g2⟩ := tier2_body_ok a delta lb sc st st1 w hb
      exact ⟨h1.trans g1, h2.trans g2⟩

theorem tier1_body_pref_nodg (a : String) (delta lb : Rat)
    (sc : List (String × ScanRecord)) (st : LoopSt) (w : String)
    (hsb : st.sufficiently_better = a) :
    tier1_body a true false delta lb sc st w = .ok st ∨
    tier1_body a true false delta lb sc st w = .ok { st with fudge := some delta } := by
  unfold tier1_body
  cases hl : lookupDict sc w with
  | none => exact Or.inl rfl
  | some r =>
    by_cases hq : r.quality < lb
    · left
      simp [hq]
    · right
      simp [hq, hsb, py2LtStrRat]

theorem runLoop_tier1_pref_nodg (a : String) (delta lb : Rat)
    (sc : List (String × ScanRecord)) :
    ∀ (l : List String) (st : LoopSt), st.sufficiently_better = a →
      ∃ st', runLoop (tier1_body a true false delta lb sc) st l = .ok st' ∧
        st'.sufficiently_better = a ∧ st'.better_quality = st.better_quality := by
  intro l
  induction l with
  | nil =>
    intro st hsb
    exact ⟨st, rfl, hsb, rfl⟩
  | cons w ws ih =>
    intro st hsb
    rcases tier1_body_pref_nodg a delta lb sc st w hsb with hb | hb
    · obtain ⟨st', h1, h2, h3⟩ := ih st hsb
      refine ⟨st', ?_, h2, h3⟩
      rw [runLoop_cons, hb]
      exact h1
    · obtain ⟨st', h1, h2, h3⟩ := ih { st with fudge := some delta } hsb
      refine ⟨st', ?_, h2, h3⟩
      rw [runLoop_cons, hb]
      exact h1

theorem tier1_body_pref_dg (a : String) (delta lb : Rat)
    (sc : List (String × ScanRecord)) (st : LoopSt) (w : String)
    (hsb : st.sufficiently_better = a) (hf : st.fudge = none) :
    (inRangeB sc lb w = true →
      tier1_body a true true delta lb sc st w = .error PyErr.unboundLocal) ∧
    (inRangeB sc lb w = false →
      tier1_body a true true delta lb sc st w = .ok st) := by
  unfold tier1_body inRangeB
  cases hl : lookupDict sc w with
  | none =>
    refine ⟨fun hc => absurd hc (by simp), fun _ => rfl⟩
  | some r =>
    by_cases hq : r.quality < lb
    · have hr : ¬ lb ≤ r.quality := not_le.mpr hq
      refine ⟨fun hc => absurd hc (by simp [hr]), fun _ => by simp [hq]⟩
    · have hr : lb ≤ r.quality := not_lt.mp hq
      refine ⟨fun _ => ?_, fun hc => absurd hc (by simp [hr])⟩
      simp [hq, hsb, hf]

theorem runLoop_tier1_pref_dg (a : String) (delta lb : Rat)
    (sc : List (String × ScanRecord)) :
    ∀ (l : List String) (st : LoopSt), st.sufficiently_better = a →
      st.fudge = none → anyInRange sc lb l = true →
      runLoop (tier1_body a true true delta lb sc) st l = .error PyErr.unboundLocal := by
  intro l
  induction l with
  | nil =>
    intro st _ _ hany
    exact absurd hany (by simp [anyInRange])
  | cons w ws ih =>
    intro st hsb hf hany
    by_cases hw : inRangeB sc lb w = true
    · rw [runLoop_cons, (tier1_body_pref_dg a delta lb sc st w hsb hf).1 hw]
    · have hw' : inRangeB sc lb w = false := Bool.eq_false_iff.mpr hw
      have hany' : anyInRange sc lb ws = true := by
        simpa [anyInRange, hw'] using hany
      rw [runLoop_cons, (tier1_body_pref_dg a delta lb sc st w hsb hf).2 hw']
      exact ih st hsb hf hany'

theorem tier1_body_nonpref (a : String) (dg : Bool) (delta lb : Rat)
    (sc : List (String × ScanRecord)) (st : LoopSt) (w : String) :
    (inRangeB sc lb w = false → tier1_body a false dg delta lb sc st w = .ok st) ∧
    (inRangeB sc lb w = true → ∃ r, lookupDict sc w = some r ∧
      tier1_body a false dg delta lb sc st w =
        .ok { st with sufficiently_better := w, better_quality := r.quality }) := by
  unfold tier1_body inRangeB
  cases hl : lookupDict sc w with
  | none =>
    exact ⟨fun _ => rfl, fun hc => absurd hc (by simp)⟩
  | some r =>
    by_cases hq : r.quality < lb
    · have hr : ¬ lb ≤ r.quality := not_le.mpr hq
      exact ⟨fun _ => by simp [hq], fun hc => absurd hc (by simp [hr])⟩
    · have hr : lb ≤ r.quality := not_lt.mp hq
      refine ⟨fun hc => absurd hc (by simp [hr]), fun _ => ⟨r, rfl, ?_⟩⟩
      simp [hq]

theorem runLoop_tier1_nonpref (a : String) (dg : Bool) (delta lb : Rat)
    (sc : List (String × ScanRecord)) :
    ∀ (l : List String) (st : LoopSt),
      ∃ st', runLoop (tier1_body a false dg delta lb sc) st l = .ok st' ∧
        ((st'.sufficiently_better = st.sufficiently_better ∧
            st'.better_quality = st.better_quality) ∨
          (st'.sufficiently_better ∈ l ∧ inRangeB sc lb st'.sufficiently_better = true)) ∧
        (anyInRange sc lb l = true →
          st'.sufficiently_better ∈ l ∧ inRangeB sc lb st'.sufficiently_better = true) := by
  intro l
  induction l with
  | nil =>
    intro st
    exact ⟨st, rfl, Or.inl ⟨rfl, rfl⟩, fun hc => absurd hc (by simp [anyInRange])⟩
  | cons w ws ih =>
    intro st
    by_cases hw : inRangeB sc lb w = true
    · obtain ⟨r, hr, hb⟩ := (tier1_body_nonpref a dg delta lb sc st w).2 hw
      obtain ⟨st', h1, h2, _⟩ :=
        ih { st with sufficiently_better := w, better_quality := r.quality }
      have hmem : st'.sufficiently_better ∈ w :: ws ∧
          inRangeB sc lb st'.sufficiently_better = true := by
        rcases h2 with ⟨hsb, _⟩ | ⟨hin, hrange⟩
        · refine ⟨?_, ?_⟩
          · rw [hsb]
            exact List.mem_cons_self w ws
          · rw [hsb]
            exact hw
        · exact ⟨List.mem_cons_of_mem w hin, hrange⟩
      refine ⟨st', ?_, Or.inr hmem, fun _ => hmem⟩
      rw [runLoop_cons, hb]
      exact h1
    · have hw' : inRangeB sc lb w = false := Bool.eq_false_iff.mpr hw
      have hb := (tier1_body_nonpref a dg delta lb sc st w).1 hw'
      obtain ⟨st', h1, h2, h3⟩ := ih st
      refine ⟨st', ?_, ?_, ?_⟩
      · rw [runLoop_cons, hb]
        exact h1
      · rcases h2 with h2 | ⟨hin, hrange⟩
        · exact Or.inl h2
        · exact Or.inr ⟨List.mem_cons_of_mem w hin, hrange⟩
      · intro hany
        have hany' : anyInRange sc lb ws = true := by
          simpa [anyInRange, hw'] using hany
        obtain ⟨hin, hrange⟩ := h3 hany'
        exact ⟨List.mem_cons_of_mem w hin, hrange⟩

theorem core_eq_tiers (a : String) (scanned : List (String × ScanRecord))
    (pref nonpref : List String) (delta lb : Rat) (r : ScanRecord)
    (hne : scanned ≠ [])
    (hnamb : (nonpref.contains a && pref.contains a) = false)
    (ha : a ≠ "")
    (hl : lookupDict scanned a = some r) :
    find_better_wifi_core (some a) (some scanned) pref nonpref delta lb =
      tiers_search a (pref.contains a) (decide (r.quality < lb)) r.quality
        scanned pref nonpref delta lb := by
  have hlen : ¬ scanned.length = 0 := by
    simpa [List.length_eq_zero] using hne
  simp only [find_better_wifi_core, optMem, hlen, if_false, hnamb, ha, hl,
    Bool.false_eq_true, ite_false]

theorem tiers_pref_nodg_ok (a : String) (qa : Rat) (sc : List (String × ScanRecord))
    (pref nonpref : List String) (delta lb : Rat) (d : Option String)
    (h : tiers_search a true false qa sc pref nonpref delta lb = .ok d) :
    d = some a := by
  obtain ⟨st1, h1, hsb, _⟩ :=
    runLoop_tier1_pref_nodg a delta lb sc pref ⟨a, qa, none⟩ rfl
  unfold tiers_search at h
  rw [h1] at h
  dsimp only at h
  by_cases hc : (true && decide (lb < st1.better_quality)) = true
  · rw [if_pos hc] at h
    cases h
    rw [hsb]
  · rw [if_neg hc] at h
    cases h2 : runLoop (tier2_body a delta lb sc) st1 nonpref with
    | error e =>
      rw [h2] at h
      dsimp only at h
      exact Except.noConfusion h
    | ok st2 =>
      rw [h2] at h
      dsimp only at h
      cases h
      rw [(runLoop_tier2_ok a delta lb sc nonpref st1 st2 h2).1, hsb]

theorem tiers_pref_nodg_stay (a : String) (qa : Rat) (sc : List (String × ScanRecord))
    (pref nonpref : List String) (delta lb : Rat) (hq : lb < qa) :
    tiers_search a true false qa sc pref nonpref delta lb = .ok (some a) := by
  obtain ⟨st1, h1, hsb, hbq⟩ :=
    runLoop_tier1_pref_nodg a delta lb sc pref ⟨a, qa, none⟩ rfl
  unfold tiers_search
  rw [h1]
  dsimp only
  have hc : (true && decide (lb < st1.better_quality)) = true := by
    simp [hbq, hq]
  rw [if_pos hc, hsb]

theorem tiers_pref_dg_err (a : String) (qa : Rat) (sc : List (String × ScanRecord))
    (pref nonpref : List String) (delta lb : Rat)
    (hany : anyInRange sc lb pref = true) :
    tiers_search a true true qa sc pref nonpref delta lb =
      .error PyErr.unboundLocal := by
  unfold tiers_search
  rw [runLoop_tier1_pref_dg a delta lb sc pref ⟨a, qa, none⟩ rfl rfl hany]

theorem tiers_nonpref_ok (a : String) (dg : Bool) (qa : Rat)
    (sc : List (String × ScanRecord)) (pref nonpref : List String)
    (delta lb : Rat) (d : Option String)
    (h : tiers_search a false dg qa sc pref nonpref delta lb = .ok d) :
    (d = some a ∨ optInList d pref) ∧
      (anyInRange sc lb pref = true → optInList d pref) := by
  obtain ⟨st1, h1, h2, h3⟩ :=
    runLoop_tier1_nonpref a dg delta lb sc pref ⟨a, qa, none⟩
  unfold tiers_search at h
  rw [h1] at h
  dsimp only at h
  rw [if_neg (by simp)] at h
  cases h4 : runLoop (tier2_body a delta lb sc) st1 nonpref with
  | error e =>
    rw [h4] at h
    dsimp only at h
    exact Except.noConfusion h
  | ok st2 =>
    rw [h4] at h
    dsimp only at h
    cases h
    have hsb : st2.sufficiently_better = st1.sufficiently_better :=
      (runLoop_tier2_ok a delta lb sc nonpref st1 st2 h4).1
    constructor
    · rcases h2 with ⟨hs, _⟩ | ⟨hin, _⟩
      · left
        rw [hsb, hs]
      · right
        show st2.sufficiently_better ∈ pref
        rw [hsb]
        exact hin
    · intro hany
      obtain ⟨hin, _⟩ := h3 hany
      show st2.sufficiently_better ∈ pref
      rw [hsb]
      exact hin

theorem anyInRange_nil_scan (lb : Rat) (l : List String) :
    anyInRange [] lb l = false := by
  simp [anyInRange, inRangeB, lookupDict]

theorem core_ok_inversion (active : Option String)
    (scanned : List (String × ScanRecord)) (pref nonpref : List String)
    (delta lb : Rat) (d : Option String)
    (hne : scanned ≠ [])
    (hok : find_better_wifi_core active (some scanned) pref nonpref delta lb = .ok d) :
    ∃ a r, active = some a ∧ a ≠ "" ∧
      (nonpref.contains a && pref.contains a) = false ∧
      lookupDict scanned a = some r ∧
      tiers_search a (pref.contains a) (decide (r.quality < lb)) r.quality
        scanned pref nonpref delta lb = .ok d := by
  have hlen : ¬ scanned.length = 0 := by
    simpa [List.length_eq_zero] using hne
  unfold find_better_wifi_core at hok
  dsimp only at hok
  rw [if_neg hlen] at hok
  by_cases hamb : (optMem active nonpref && optMem active pref) = true
  · rw [if_pos hamb] at hok
    exact Except.noConfusion hok
  · rw [if_neg hamb] at hok
    cases active with
    | none =>
      dsimp only at hok
      exact Except.noConfusion hok
    | some a =>
      dsimp only at hok
      by_cases ha : a = ""
      · rw [if_pos ha] at hok
        exact Except.noConfusion hok
      · rw [if_neg ha] at hok
        cases hl : lookupDict scanned a with
        | none =>
          rw [hl] at hok
          dsimp only at hok
          exact Except.noConfusion hok
        | some r =>
          rw [hl] at hok
          dsimp only at hok
          exact ⟨a, r, rfl, ha, Bool.eq_false_iff.mpr hamb, hl, hok⟩

/-- C1: Tier precedence.  Whenever `find_better_wifi` returns normally and
at least one preferred identifier is present in the snapshot with quality
at or above the floor, the decision is either the active identifier
itself or a member of the preferred list; in particular, when the active
network is not preferred, the decision is a preferred identifier (a
non-preferred identifier other than the active one is never returned). -/
theorem C1_tier_precedence (active : Option String)
    (scanned : List (String × ScanRecord)) (pref nonpref : List String)
    (delta lb : Rat) (d : Option String)
    (hok : find_better_wifi_core active (some scanned) pref nonpref delta lb = .ok d)
    (hex : anyInRange scanned lb pref = true) :
    (d = active ∨ optInList d pref) ∧
      (optMem active pref = false → optInList d pref) := by
  have hne : scanned ≠ [] := by
    intro hnil
    subst hnil
    rw [anyInRange_nil_scan] at hex
    exact Bool.noConfusion hex
  obtain ⟨a, r, hact, _, _, _, htiers⟩ :=
    core_ok_inversion active scanned pref nonpref delta lb d hne hok
  subst hact
  by_cases hp : pref.contains a = true
  · rw [hp] at htiers
    by_cases hdg : r.quality < lb
    · rw [decide_eq_true hdg,
        tiers_pref_dg_err a r.quality scanned pref nonpref delta lb hex] at htiers
      exact Except.noConfusion htiers
    · rw [decide_eq_false hdg] at htiers
      have hd := tiers_pref_nodg_ok a r.quality scanned pref nonpref delta lb d htiers
      refine ⟨Or.inl hd, fun hfalse => ?_⟩
      have : pref.contains a = false := hfalse
      rw [hp] at this
      exact Bool.noConfusion this
  · have hp' : pref.contains a = false := Bool.eq_false_iff.mpr hp
    rw [hp'] at htiers
    obtain ⟨h1, h2⟩ :=
      tiers_nonpref_ok a (decide (r.quality < lb)) r.quality scanned pref nonpref
        delta lb d htiers
    exact ⟨h1, fun _ => h2 hex⟩

/-- Witness for C1 at spec scenario 5: active `open1` (non-preferred,
quality 0.9), preferred `secA` in range at 0.6 — the decision is `secA`. -/
theorem C1_tier_precedence_witness :
    ((some "secA" : Option String) = some "open1" ∨ optInList (some "secA") ["secA"]) ∧
      (optMem (some "open1") ["secA"] = false → optInList (some "secA") ["secA"]) :=
  C1_tier_precedence (some "open1")
    [("secA", mkScan "secA" (mkRat 6 10)), ("open1", mkScan "open1" (mkRat 9 10))]
    ["secA"] ["open1"] (mkRat 15 100) (mkRat 1 2) (some "secA") (by rfl) (by decide)

/-- C4: When the active identifier is preferred, present in the snapshot
with quality strictly above the fixed lower bound 0.5, and the fatal
guards pass, `find_better_wifi` returns the active identifier unchanged,
whatever the other scanned qualities and list entries are: the same-tier
hysteresis comparison pits the identifier STRING against a quality number
(always false under Python 2 ordering), so no other preferred network is
ever selected, and the short-circuit then skips the non-preferred tier. -/
theorem C4_active_preferred_stays (a : String)
    (scanned : List (String × ScanRecord)) (pref nonpref : List String)
    (delta : Rat) (r : ScanRecord)
    (hp : a ∈ pref) (hn : a ∉ nonpref) (ha : a ≠ "")
    (hl : lookupDict scanned a = some r)
    (hq : signal_quality_lower_bound < r.quality) :
    find_better_wifi_core (some a) (some scanned) pref nonpref delta
      signal_quality_lower_bound = .ok (some a) := by
  have hne : scanned ≠ [] := by
    intro hnil
    subst hnil
    simp [lookupDict] at hl
  have hnc : nonpref.contains a = false := by
    simpa using hn
  have hnamb : (nonpref.contains a && pref.contains a) = false := by
    rw [hnc]
    rfl
  rw [core_eq_tiers a scanned pref nonpref delta signal_quality_lower_bound r
    hne hnamb ha hl]
  have hpc : pref.contains a = true := by
    simpa using hp
  rw [hpc, decide_eq_false (not_lt.mpr (le_of_lt hq))]
  exact tiers_pref_nodg_stay a r.quality scanned pref nonpref delta
    signal_quality_lower_bound hq

/-- Witness for C4: active `secA` at quality 0.7 stays selected although
preferred `secB` and non-preferred `g` are both in range at 0.99. -/
theorem C4_active_preferred_stays_witness :
    find_better_wifi_core (some "secA")
      (some [("secA", mkScan "secA" (mkRat 7 10)), ("secB", mkScan "secB" (mkRat 99 100)),
        ("g", mkScan "g" (mkRat 99 100))])
      ["secA", "secB"] ["g"] (mkRat 15 100) signal_quality_lower_bound =
      .ok (some "secA") :=
  C4_active_preferred_stays "secA"
    [("secA", mkScan "secA" (mkRat 7 10)), ("secB", mkScan "secB" (mkRat 99 100)),
      ("g", mkScan "g" (mkRat 99 100))]
    ["secA", "secB"] ["g"] (mkRat 15 100) (mkScan "secA" (mkRat 7 10))
    (by decide) (by decide) (by decide) (by rfl) (by decide)

/-- C5: With an absent or empty scan snapshot, `find_better_wifi` returns
the active identifier unchanged for every active identifier, preference
lists and thresholds, and raises no error (the emptiness test is the very
first statement of the function). -/
theorem C5_empty_snapshot_noop (active : Option String)
    (pref nonpref : List String) (delta lb : Rat) :
    find_better_wifi_core active none pref nonpref delta lb = .ok active ∧
      find_better_wifi_core active (some []) pref nonpref delta lb = .ok active :=
  ⟨rfl, rfl⟩

/-- C2 failing input, spec scenario 2: active `secA` is preferred but
below the floor (quality 0.3), `secB` is preferred and in range at 0.6.
The spec says the margin is waived and `secB` is returned; the code
instead reaches the hysteresis comparison with the local `fudge` never
assigned (the `allow_downgrade` branch skips the assignment) and raises
`UnboundLocalError`. -/
theorem C2_downgrade_raises_unbound_local :
    find_better_wifi_core (some "secA")
      (some [("secA", mkScan "secA" (mkRat 3 10)), ("secB", mkScan "secB" (mkRat 6 10))])
      ["secA", "secB"] [] (mkRat 15 100) (mkRat 1 2) =
      .error PyErr.unboundLocal :=
  rfl

/-- C3 failing input: the non-preferred loop reads
`scanned_wifi_set[wifi]` without a presence check, so a non-preferred
candidate absent from the snapshot (`ghost` here) raises `KeyError`
instead of being skipped as the spec prescribes. -/
theorem C3_tier2_absent_candidate_keyerror :
    find_better_wifi_core (some "g1")
      (some [("g1", mkScan "g1" (mkRat 6 10))])
      [] ["g1", "ghost"] (mkRat 15 100) (mkRat 1 2) =
      .error (PyErr.keyError "ghost") :=
  rfl

/-- C10: The decision of `find_better_wifi` is unchanged under any value
of the `signal_quality_threshold` flag (set by
`--signal_quality_threshold`): the selection logic reads only the
preference lists, the delta threshold and the fixed module constant
`signal_quality_lower_bound`. -/
theorem C10_threshold_flag_irrelevant (g : Flags) (x : Rat)
    (active : Option String)
    (snap : Option (List (String × ScanRecord))) :
    find_better_wifi { g with signal_quality_threshold := x } active snap =
      find_better_wifi g active snap :=
  rfl

/-- C6 counterexample: with an empty active identifier AND an empty
snapshot, `find_better_wifi` does not fail — the emptiness early return
precedes the empty-active guard and hands back the empty identifier as a
normal decision. -/
theorem C6_counterexample_empty_snapshot :
    find_better_wifi_core (some "") (some []) ["p"] ["n"]
      (mkRat 15 100) (mkRat 1 2) = .ok (some "") :=
  rfl

/-- C6 amended: when the snapshot is NON-EMPTY, an empty or absent active
identifier makes `find_better_wifi` abort with a `bail_with_message`
fatal error (a configuration error; no decision is produced). -/
theorem C6_empty_active_bails (active : Option String)
    (scanned : List (String × ScanRecord)) (pref nonpref : List String)
    (delta lb : Rat)
    (hne : scanned ≠ [])
    (hempty : active = none ∨ active = some "") :
    isBailError (find_better_wifi_core active (some scanned) pref nonpref delta lb) := by
  have hlen : ¬ scanned.length = 0 := by
    simpa [List.length_eq_zero] using hne
  rcases hempty with h | h
  · subst h
    simp [find_better_wifi_core, optMem, hlen, isBailError]
  · subst h
    by_cases hamb : "" ∈ nonpref ∧ "" ∈ pref
    · simp [find_better_wifi_core, optMem, hlen, hamb, isBailError]
    · simp [find_better_wifi_core, optMem, hlen, hamb, isBailError]

/-- Witness for the amended C6 at a concrete non-empty snapshot with the
active identifier absent (`None`). -/
theorem C6_empty_active_bails_witness :
    isBailError (find_better_wifi_core none
      (some [("x", mkScan "x" (mkRat 1 2))]) [] [] (mkRat 15 100) (mkRat 1 2)) :=
  C6_empty_active_bails none [("x", mkScan "x" (mkRat 1 2))] [] []
    (mkRat 15 100) (mkRat 1 2) (by decide) (Or.inl rfl)

/-- C7: for every non-empty snapshot that does not contain the active
identifier as a key, `find_better_wifi` aborts with a fatal
`bail_with_message` error and produces no decision (whichever of the
three guards fires first). -/
theorem C7_missing_active_bails (active : Option String)
    (scanned : List (String × ScanRecord)) (pref nonpref : List String)
    (delta lb : Rat)
    (hne : scanned ≠ [])
    (habs : activeInSnapshot active scanned = false) :
    isBailError (find_better_wifi_core active (some scanned) pref nonpref delta lb) := by
  have hlen : ¬ scanned.length = 0 := by
    simpa [List.length_eq_zero] using hne
  cases active with
  | none =>
    simp [find_better_wifi_core, optMem, hlen, isBailError]
  | some s =>
    have hlook : lookupDict scanned s = none := by
      cases hl : lookupDict scanned s with
      | none => rfl
      | some r => simp [activeInSnapshot, hl] at habs
    by_cases hamb : s ∈ nonpref ∧ s ∈ pref
    · simp [find_better_wifi_core, optMem, hlen, hamb, isBailError]
    · by_cases hs : s = ""
      · subst hs
        simp [find_better_wifi_core, optMem, hlen, hamb, isBailError]
      · simp [find_better_wifi_core, optMem, hlen, hamb, hs, hlook, isBailError]

/-- Witness for C7: a non-empty snapshot listing only `x` while the
active network is `zz`. -/
theorem C7_missing_active_bails_witness :
    isBailError (find_better_wifi_core (some "zz")
      (some [("x", mkScan "x" (mkRat 6 10))]) ["x"] [] (mkRat 15 100) (mkRat 1 2)) :=
  C7_missing_active_bails (some "zz") [("x", mkScan "x" (mkRat 6 10))] ["x"] []
    (mkRat 15 100) (mkRat 1 2) (by decide) (by decide)

/-- C8 counterexample: the active identifier `x` is in both preference
lists, yet with an absent snapshot `find_better_wifi` returns normally
(the emptiness early return precedes the ambiguity guard), contradicting
the claim that every such input fails. -/
theorem C8_counterexample_empty_snapshot :
    find_better_wifi_core (some "x") none ["x"] ["x"]
      (mkRat 15 100) (mkRat 1 2) = .ok (some "x") :=
  rfl

/-- C8 amended: when the snapshot is NON-EMPTY, an active identifier
present in both the preferred and the non-preferred list makes
`find_better_wifi` abort with the ambiguous-preference fatal error. -/
theorem C8_ambiguous_preference_bails (a : String)
    (scanned : List (String × ScanRecord)) (pref nonpref : List String)
    (delta lb : Rat)
    (hne : scanned ≠ []) (hp : a ∈ pref) (hn : a ∈ nonpref) :
    find_better_wifi_core (some a) (some scanned) pref nonpref delta lb =
      .error (PyErr.bail "cannot be both preferred and non-preferred") := by
  have hlen : ¬ scanned.length = 0 := by
    simpa [List.length_eq_zero] using hne
  simp [find_better_wifi_core, optMem, hlen, hp, hn]

/-- Witness for the amended C8 at a concrete non-empty snapshot. -/
theorem C8_ambiguous_preference_bails_witness :
    find_better_wifi_core (some "x")
      (some [("x", mkScan "x" (mkRat 6 10))]) ["x"] ["x"]
      (mkRat 15 100) (mkRat 1 2) =
      .error (PyErr.bail "cannot be both preferred and non-preferred") :=
  C8_ambiguous_preference_bails "x" [("x", mkScan "x" (mkRat 6 10))] ["x"] ["x"]
    (mkRat 15 100) (mkRat 1 2) (by decide) (by decide) (by decide)

/-- First name of a list absent from the snapshot — the candidate on
which the non-preferred loop raises `KeyError`, if any. -/
def firstMissing (sc : List (String × ScanRecord)) : List String → Option String
  | [] => none
  | w :: ws =>
    match lookupDict sc w with
    | none => some w
    | some _ => firstMissing sc ws

theorem tier2_body_present (a : String) (delta lb : Rat)
    (sc : List (String × ScanRecord)) (st : LoopSt) (w : String) (r : ScanRecord)
    (hl : lookupDict sc w = some r) :
    ∃ st1, tier2_body a delta lb sc st w = .ok st1 ∧
      st1.sufficiently_better = st.sufficiently_better := by
  unfold tier2_body
  rw [hl]
  by_cases hq : r.quality < lb
  · exact ⟨st, by simp [hq], rfl⟩
  · refine ⟨{ st with
      fudge := some (if st.sufficiently_better = a then delta else 0) }, ?_, rfl⟩
    simp [hq, py2LtStrRat]

theorem runLoop_tier2_char (a : String) (delta lb : Rat)
    (sc : List (String × ScanRecord)) :
    ∀ (l : List String) (st : LoopSt),
      (∀ w, firstMissing sc l = some w →
        runLoop (tier2_body a delta lb sc) st l = .error (PyErr.keyError w)) ∧
      (firstMissing sc l = none →
        ∃ st2, runLoop (tier2_body a delta lb sc) st l = .ok st2 ∧
          st2.sufficiently_better = st.sufficiently_better) := by
  intro l
  induction l with
  | nil =>
    intro st
    refine ⟨fun w h => ?_, fun _ => ⟨st, rfl, rfl⟩⟩
    simp [firstMissing] at h
  | cons w ws ih =>
    intro st
    cases hl : lookupDict sc w with
    | none =>
      constructor
      · intro w' h
        have hw : w = w' := by
          simpa [firstMissing, hl] using h
        subst hw
        have hb : tier2_body a delta lb sc st w = .error (PyErr.keyError w) := by
          simp [tier2_body, hl]
        rw [runLoop_cons, hb]
      · intro h
        simp [firstMissing, hl] at h
    | some r =>
      obtain ⟨st1, hb, hsb1⟩ := tier2_body_present a delta lb sc st w r hl
      obtain ⟨ihErr, ihOk⟩ := ih st1
      constructor
      · intro w' h
        have h' : firstMissing sc ws = some w' := by
          simpa [firstMissing, hl] using h
        rw [runLoop_cons, hb]
        exact ihErr w' h'
      · intro h
        have h' : firstMissing sc ws = none := by
          simpa [firstMissing, hl] using h
        obtain ⟨st2, h2, h3⟩ := ihOk h'
        refine ⟨st2, ?_, h3.trans hsb1⟩
        rw [runLoop_cons, hb]
        exact h2

theorem runLoop_congr (b1 b2 : LoopSt → String → Except PyErr LoopSt)
    (hb : ∀ st w, b1 st w = b2 st w) :
    ∀ (l : List String) (st : LoopSt), runLoop b1 st l = runLoop b2 st l := by
  intro l
  induction l with
  | nil => intro st; rfl
  | cons w ws ih =>
    intro st
    rw [runLoop_cons, runLoop_cons, hb st w]
    cases h : b2 st w with
    | error e => rfl
    | ok st1 =>
      dsimp only
      exact ih st1

theorem tier1_body_nonpref_delta (a : String) (dg : Bool) (d1 d2 lb : Rat)
    (sc : List (String × ScanRecord)) (st : LoopSt) (w : String) :
    tier1_body a false dg d1 lb sc st w = tier1_body a false dg d2 lb sc st w := by
  unfold tier1_body
  cases lookupDict sc w with
  | none => rfl
  | some r =>
    by_cases hq : r.quality < lb
    · simp [hq]
    · simp [hq]

theorem runLoop_tier1_pref_dg_noerr (a : String) (delta lb : Rat)
    (sc : List (String × ScanRecord)) :
    ∀ (l : List String) (st : LoopSt), st.sufficiently_better = a →
      st.fudge = none → anyInRange sc lb l = false →
      runLoop (tier1_body a true true delta lb sc) st l = .ok st := by
  intro l
  induction l with
  | nil => intro st _ _ _; rfl
  | cons w ws ih =>
    intro st hsb hf hany
    have hany0 : (inRangeB sc lb w || List.any ws fun x => inRangeB sc lb x) = false := by
      unfold anyInRange at hany
      rw [List.any_cons] at hany
      exact hany
    obtain ⟨hw, hany'⟩ := Bool.or_eq_false_iff.mp hany0
    rw [runLoop_cons, (tier1_body_pref_dg a delta lb sc st w hsb hf).2 hw]
    exact ih st hsb hf hany'

theorem tiers_delta_irrel (a : String) (ap dg : Bool) (qa : Rat)
    (sc : List (String × ScanRecord)) (pref nonpref : List String)
    (d1 d2 lb : Rat) :
    tiers_search a ap dg qa sc pref nonpref d1 lb =
      tiers_search a ap dg qa sc pref nonpref d2 lb := by
  cases ap with
  | false =>
    unfold tiers_search
    rw [runLoop_congr (tier1_body a false dg d1 lb sc) (tier1_body a false dg d2 lb sc)
      (fun st w => tier1_body_nonpref_delta a dg d1 d2 lb sc st w) pref ⟨a, qa, none⟩]
    cases h1 : runLoop (tier1_body a false dg d2 lb sc) ⟨a, qa, none⟩ pref with
    | error e => rfl
    | ok st1 =>
      dsimp only
      simp only [Bool.false_and, Bool.false_eq_true, if_false]
      cases hm : firstMissing sc nonpref with
      | some w =>
        rw [(runLoop_tier2_char a d1 lb sc nonpref st1).1 w hm,
          (runLoop_tier2_char a d2 lb sc nonpref st1).1 w hm]
      | none =>
        obtain ⟨t1, e1, f1⟩ := (runLoop_tier2_char a d1 lb sc nonpref st1).2 hm
        obtain ⟨t2, e2, f2⟩ := (runLoop_tier2_char a d2 lb sc nonpref st1).2 hm
        rw [e1, e2]
        dsimp only
        rw [f1, f2]
  | true =>
    cases dg with
    | false =>
      obtain ⟨s1, h1, hs1, hb1⟩ :=
        runLoop_tier1_pref_nodg a d1 lb sc pref ⟨a, qa, none⟩ rfl
      obtain ⟨s2, h2, hs2, hb2⟩ :=
        runLoop_tier1_pref_nodg a d2 lb sc pref ⟨a, qa, none⟩ rfl
      unfold tiers_search
      rw [h1, h2]
      dsimp only
      by_cases hq : lb < qa
      · have hc1 : (true && decide (lb < s1.better_quality)) = true := by
          rw [hb1]
          simp [hq]
        have hc2 : (true && decide (lb < s2.better_quality)) = true := by
          rw [hb2]
          simp [hq]
        rw [if_pos hc1, if_pos hc2, hs1, hs2]
      · have hc1 : ¬ (true && decide (lb < s1.better_quality)) = true := by
          rw [hb1]
          simp [hq]
        have hc2 : ¬ (true && decide (lb < s2.better_quality)) = true := by
          rw [hb2]
          simp [hq]
        rw [if_neg hc1, if_neg hc2]
        cases hm : firstMissing sc nonpref with
        | some w =>
          rw [(runLoop_tier2_char a d1 lb sc nonpref s1).1 w hm,
            (runLoop_tier2_char a d2 lb sc nonpref s2).1 w hm]
        | none =>
          obtain ⟨t1, e1, f1⟩ := (runLoop_tier2_char a d1 lb sc nonpref s1).2 hm
          obtain ⟨t2, e2, f2⟩ := (runLoop_tier2_char a d2 lb sc nonpref s2).2 hm
          rw [e1, e2]
          dsimp only
          rw [f1, f2, hs1, hs2]
    | true =>
      by_cases hany : anyInRange sc lb pref = true
      · rw [tiers_pref_dg_err a qa sc pref nonpref d1 lb hany,
          tiers_pref_dg_err a qa sc pref nonpref d2 lb hany]
      · have hany' : anyInRange sc lb pref = false := Bool.eq_false_iff.mpr hany
        unfold tiers_search
        rw [runLoop_tier1_pref_dg_noerr a d1 lb sc pref ⟨a, qa, none⟩ rfl rfl hany',
          runLoop_tier1_pref_dg_noerr a d2 lb sc pref ⟨a, qa, none⟩ rfl rfl hany']
        dsimp only
        by_cases hq : lb < qa
        · simp [hq]
        · have hc : ¬ (true && decide (lb < qa)) = true := by
            simp [hq]
          rw [if_neg hc, if_neg hc]
          cases hm : firstMissing sc nonpref with
          | some w =>
            rw [(runLoop_tier2_char a d1 lb sc nonpref ⟨a, qa, none⟩).1 w hm,
              (runLoop_tier2_char a d2 lb sc nonpref ⟨a, qa, none⟩).1 w hm]
          | none =>
            obtain ⟨t1, e1, f1⟩ :=
              (runLoop_tier2_char a d1 lb sc nonpref ⟨a, qa, none⟩).2 hm
            obtain ⟨t2, e2, f2⟩ :=
              (runLoop_tier2_char a d2 lb sc nonpref ⟨a, qa, none⟩).2 hm
            rw [e1, e2]
            dsimp only
            rw [f1, f2]

theorem core_delta_irrel (active : Option String)
    (snap : Option (List (String × ScanRecord))) (pref nonpref : List String)
    (d1 d2 lb : Rat) :
    find_better_wifi_core active snap pref nonpref d1 lb =
      find_better_wifi_core active snap pref nonpref d2 lb := by
  cases snap with
  | none => rfl
  | some scanned =>
    unfold find_better_wifi_core
    dsimp only
    by_cases hlen : scanned.length = 0
    · rw [if_pos hlen, if_pos hlen]
    · rw [if_neg hlen, if_neg hlen]
      by_cases hamb : (optMem active nonpref && optMem active pref) = true
      · rw [if_pos hamb, if_pos hamb]
      · rw [if_neg hamb, if_neg hamb]
        cases active with
        | none => rfl
        | some a =>
          dsimp only
          by_cases ha : a = ""
          · rw [if_pos ha, if_pos ha]
          · rw [if_neg ha, if_neg ha]
            cases hl : lookupDict scanned a with
            | none => rfl
            | some r =>
              dsimp only
              exact tiers_delta_irrel a (pref.contains a)
                (decide (r.quality < lb)) r.quality scanned pref nonpref d1 d2 lb

/-- C9: Margin monotonicity.  If an invocation with the strictly larger
switch margin `m2` switches away from the active identifier, then the
invocation identical in everything but the smaller margin `m1` makes the
very same switch: the returned decision of `find_better_wifi` does not
depend on the margin at all (it only feeds a comparison that Python 2
mixed-type ordering makes vacuous), so the set of switching inputs cannot
grow when the margin increases. -/
theorem C9_margin_monotonicity (active : Option String)
    (snap : Option (List (String × ScanRecord))) (pref nonpref : List String)
    (m1 m2 lb : Rat) (d : Option String)
    (_hlt : m1 < m2)
    (hsw : find_better_wifi_core active snap pref nonpref m2 lb = .ok d)
    (hne : d ≠ active) :
    find_better_wifi_core active snap pref nonpref m1 lb = .ok d ∧ d ≠ active := by
  refine ⟨?_, hne⟩
  rw [core_delta_irrel active snap pref nonpref m1 m2 lb]
  exact hsw

/-- Witness for C9: the switch `open1` to `secA` made with margin 0.15 is
also made with margin 0.1. -/
theorem C9_margin_monotonicity_witness :
    find_better_wifi_core (some "open1")
      (some [("secA", mkScan "secA" (mkRat 6 10)), ("open1", mkScan "open1" (mkRat 9 10))])
      ["secA"] ["open1"] (mkRat 1 10) (mkRat 1 2) = .ok (some "secA") ∧
      (some "secA" : Option String) ≠ some "open1" :=
  C9_margin_monotonicity (some "open1")
    (some [("secA", mkScan "secA" (mkRat 6 10)), ("open1", mkScan "open1" (mkRat 9 10))])
    ["secA"] ["open1"] (mkRat 1 10) (mkRat 15 100) (mkRat 1 2) (some "secA")
    (by decide) (by rfl) (by decide)
